import Mathlib

/-!
Shallow embedding of `src/lcoe_script.py` (function `calculate_lcoe`).

Floats are modelled by exact rationals, and the outcome of a call is
three-valued (`PyOutcome`), because the source mixes two kinds of
division-by-zero behaviour:
  * `Dn = econ.capex / Nd` (line 26) divides plain Python numbers, so
    `Nd = 0` raises `ZeroDivisionError`;
  * the final `lcoe_num / lcoe_den` (line 39) raises `ZeroDivisionError`
    only when the loop never ran (`T ≤ 0`), because then `lcoe_den` is
    still the plain literal `0.`;
  * inside the loop (`T ≥ 1`) `year` comes from `np.arange(1, T+1)` as
    `np.int64`, so `(1 + econ.d/100.)**year` is `np.float64` and both
    accumulators become `np.float64` after the first iteration.  Dividing
    by an `np.float64` zero does not raise: numpy emits a `RuntimeWarning`
    and produces `inf`/`nan`, which then propagates to the returned value.
    This covers the per-year divisions (lines 33, 35, 37) when
    `1 + econ.d/100 = 0`, and the final division when the loop ran and
    `lcoe_den` sums to zero.  Such runs return a non-finite double, which
    has no rational counterpart; they are modelled by `PyOutcome.nonfinite`.
The loop `for year in np.arange(1, T+1)` runs over the integers
`1, …, T` (empty when `T ≤ 0`); it is modelled by a monadic fold over
`List.range T.toNat` with `year = i + 1`.
-/

/-- Outcome of one call of the Python function: it returns a finite float
(modelled exactly by a rational), or returns a non-finite float
(`inf`/`nan`, after a numpy divide-by-zero `RuntimeWarning`), or raises an
exception. -/
inductive PyOutcome where
  | finite (v : ℚ)
  | nonfinite
  | raised (msg : String)
deriving Repr, DecidableEq

/-- Economic record passed to `calculate_lcoe`: capex, opex, corporate tax
rate `Tx` (percent), discount rate `d` (percent), O&M escalation rate
`rom` (percent). -/
structure Econ where
  capex : ℚ
  opex : ℚ
  Tx : ℚ
  d : ℚ
  rom : ℚ
deriving Repr, DecidableEq

/-- One iteration of the loop body of `calculate_lcoe` (lines 31–37 of the
source) at a given `year ≥ 1`, acting on the state `(lcoe_num, lcoe_den)`.
When `(1 + econ.d/100)^year = 0` the per-year divisions divide by an
`np.float64` zero: nothing is raised, but the accumulators become
`inf`/`nan` and stay non-finite for the rest of the computation, which the
fold short-circuits as `Except.error ()` (mapped to `PyOutcome.nonfinite`
by the caller). -/
def yearStep (Ef : ℚ) (econ : Econ) (deg : ℚ) (Nd : ℤ) (Dn : ℚ)
    (st : ℚ × ℚ) (year : ℕ) : Except Unit (ℚ × ℚ) :=
  if (1 + econ.d / 100) ^ year = 0 then Except.error ()
  else
    let num1 := st.1 + econ.opex * (1 - econ.Tx / 100) * (1 + econ.rom / 100) ^ year /
      (1 + econ.d / 100) ^ year
    let num2 := if (year : ℤ) ≤ Nd then
        num1 - Dn * econ.Tx / 100 / (1 + econ.d / 100) ^ year
      else num1
    Except.ok (num2, st.2 + Ef * (1 - deg) ^ year / (1 + econ.d / 100) ^ year)

/-- Embedding of `calculate_lcoe(Ef, econ, T, deg, Nd)` from
`src/lcoe_script.py` (the Python defaults are `T=25`, `deg=0.01`,
`Nd=20`).  `Nd = 0` raises at `Dn = capex/Nd` (plain Python division).
A zero final denominator raises only when the loop never ran (`T ≤ 0`,
plain `0.`); when the loop ran, the denominator is `np.float64` and a zero
value yields a non-finite result instead of an exception, as does any
in-loop division by zero. -/
def calculate_lcoe (Ef : ℚ) (econ : Econ) (T : ℤ) (deg : ℚ) (Nd : ℤ) :
    PyOutcome :=
  if Nd = 0 then PyOutcome.raised "ZeroDivisionError"
  else
    let Dn := econ.capex / (Nd : ℚ)
    match (List.range T.toNat).foldlM
        (fun st i => yearStep Ef econ deg Nd Dn st (i + 1))
        (econ.capex, (0 : ℚ)) with
    | Except.error _ => PyOutcome.nonfinite
    | Except.ok (num, den) =>
      if den = 0 then
        if T.toNat = 0 then PyOutcome.raised "ZeroDivisionError"
        else PyOutcome.nonfinite
      else PyOutcome.finite (num / den)

/-- Discount factor `(1 + d/100)^year` for a given year. -/
def discountFactor (d : ℚ) (year : ℕ) : ℚ := (1 + d / 100) ^ year

/-- After-tax escalated O&M cost of a year, discounted (line 33 of the
source). -/
def opexYear (opex Tx rom d : ℚ) (year : ℕ) : ℚ :=
  opex * (1 - Tx / 100) * (1 + rom / 100) ^ year / discountFactor d year

/-- Discounted tax shield of one year of straight-line depreciation
(line 35 of the source): `(capex/Nd) * Tx / 100 / (1 + d/100)^year`. -/
def shieldYear (capex Tx d : ℚ) (Nd : ℤ) (year : ℕ) : ℚ :=
  capex / (Nd : ℚ) * Tx / 100 / discountFactor d year

/-- Discounted degraded yield of a year (line 37 of the source). -/
def yieldYear (Ef deg d : ℚ) (year : ℕ) : ℚ :=
  Ef * (1 - deg) ^ year / discountFactor d year

/-- Closed form of the numerator accumulated by the loop:
`capex + Σ_{year=1..T} opexYear - Σ_{year=1..min T Nd} shieldYear`. -/
def lcoeNum (econ : Econ) (T Nd : ℤ) : ℚ :=
  econ.capex + (∑ y ∈ Finset.Icc 1 T.toNat, opexYear econ.opex econ.Tx econ.rom econ.d y)
    - ∑ y ∈ Finset.Icc 1 (min T.toNat Nd.toNat), shieldYear econ.capex econ.Tx econ.d Nd y

/-- Closed form of the denominator accumulated by the loop:
`Σ_{year=1..T} Ef * (1-deg)^year / (1+d/100)^year`. -/
def lcoeDen (Ef : ℚ) (econ : Econ) (deg : ℚ) (T : ℤ) : ℚ :=
  ∑ y ∈ Finset.Icc 1 T.toNat, yieldYear Ef deg econ.d y

lemma one_le_cast_le_iff {y : ℕ} {Nd : ℤ} (hy : 1 ≤ y) :
    ((y : ℤ) ≤ Nd) ↔ y ≤ Nd.toNat := by omega

lemma foldlM_yearStep (Ef : ℚ) (econ : Econ) (deg : ℚ) (Nd : ℤ) (Dn a b : ℚ)
    (hd : 1 + econ.d / 100 ≠ 0) (n : ℕ) :
    (List.range n).foldlM (fun st i => yearStep Ef econ deg Nd Dn st (i + 1)) (a, b)
      = Except.ok
          (a + (∑ y ∈ Finset.Icc 1 n, opexYear econ.opex econ.Tx econ.rom econ.d y)
             - ∑ y ∈ Finset.Icc 1 (min n Nd.toNat), Dn * econ.Tx / 100 / discountFactor econ.d y,
           b + ∑ y ∈ Finset.Icc 1 n, yieldYear Ef deg econ.d y) := by
  induction n with
  | zero =>
      simp [show Finset.Icc 1 0 = (∅ : Finset ℕ) from rfl, pure, Except.pure]
  | succ n ih =>
      rw [List.range_succ, List.foldlM_append, ih]
      have hdf : (1 + econ.d / 100) ^ (n + 1) ≠ 0 := pow_ne_zero _ hd
      simp only [List.foldlM_cons, List.foldlM_nil, bind_pure]
      show yearStep Ef econ deg Nd Dn _ (n + 1) = _
      simp only [yearStep, if_neg hdf]
      rw [Finset.sum_Icc_succ_top (Nat.le_add_left 1 n),
        Finset.sum_Icc_succ_top (Nat.le_add_left 1 n)]
      by_cases hyn : ((n + 1 : ℕ) : ℤ) ≤ Nd
      · have h1 : n + 1 ≤ Nd.toNat := (one_le_cast_le_iff (Nat.le_add_left 1 n)).mp hyn
        rw [if_pos hyn, min_eq_left h1, min_eq_left (by omega),
          Finset.sum_Icc_succ_top (Nat.le_add_left 1 n)]
        simp only [Except.ok.injEq, Prod.mk.injEq, opexYear, yieldYear, discountFactor]
        constructor <;> ring
      · have h1 : Nd.toNat ≤ n := by omega
        rw [if_neg hyn, min_eq_right (by omega), min_eq_right (by omega)]
        simp only [Except.ok.injEq, Prod.mk.injEq, opexYear, yieldYear, discountFactor]
        constructor <;> ring

lemma foldlM_yearStep_err (Ef : ℚ) (econ : Econ) (deg : ℚ) (Nd : ℤ) (Dn a b : ℚ)
    (hd : 1 + econ.d / 100 = 0) {n : ℕ} (hn : 1 ≤ n) :
    (List.range n).foldlM (fun st i => yearStep Ef econ deg Nd Dn st (i + 1)) (a, b)
      = Except.error () := by
  obtain ⟨m, rfl⟩ : ∃ m, n = m + 1 := ⟨n - 1, by omega⟩
  rw [List.range_succ_eq_map]
  simp [List.foldlM_cons, yearStep, pow_one, hd, Bind.bind, Except.bind]

lemma lcoe_Nd_zero (Ef : ℚ) (econ : Econ) (T : ℤ) (deg : ℚ) :
    calculate_lcoe Ef econ T deg 0 = PyOutcome.raised "ZeroDivisionError" := by
  simp [calculate_lcoe]

lemma calculate_lcoe_ok (Ef : ℚ) (econ : Econ) (T : ℤ) (deg : ℚ) (Nd : ℤ)
    (hNd : Nd ≠ 0) (hd : 1 + econ.d / 100 ≠ 0)
    (hden : lcoeDen Ef econ deg T ≠ 0) :
    calculate_lcoe Ef econ T deg Nd
      = PyOutcome.finite (lcoeNum econ T Nd / lcoeDen Ef econ deg T) := by
  have hden' : (0 : ℚ) + ∑ y ∈ Finset.Icc 1 T.toNat, yieldYear Ef deg econ.d y ≠ 0 := by
    simpa [lcoeDen] using hden
  simp only [calculate_lcoe, if_neg hNd,
    foldlM_yearStep Ef econ deg Nd _ _ _ hd, if_neg hden']
  simp only [lcoeNum, lcoeDen, shieldYear, zero_add]

lemma calculate_lcoe_nonfinite_d (Ef : ℚ) (econ : Econ) (T : ℤ) (deg : ℚ) (Nd : ℤ)
    (hNd : Nd ≠ 0) (hT : 1 ≤ T) (hd : 1 + econ.d / 100 = 0) :
    calculate_lcoe Ef econ T deg Nd = PyOutcome.nonfinite := by
  simp only [calculate_lcoe, if_neg hNd,
    foldlM_yearStep_err Ef econ deg Nd _ _ _ hd (show 1 ≤ T.toNat by omega)]

lemma calculate_lcoe_nonfinite_den (Ef : ℚ) (econ : Econ) (T : ℤ) (deg : ℚ) (Nd : ℤ)
    (hNd : Nd ≠ 0) (hT : 1 ≤ T) (hd : 1 + econ.d / 100 ≠ 0)
    (hden : lcoeDen Ef econ deg T = 0) :
    calculate_lcoe Ef econ T deg Nd = PyOutcome.nonfinite := by
  have hden' : (0 : ℚ) + ∑ y ∈ Finset.Icc 1 T.toNat, yieldYear Ef deg econ.d y = 0 := by
    simpa [lcoeDen] using hden
  simp only [calculate_lcoe, if_neg hNd,
    foldlM_yearStep Ef econ deg Nd _ _ _ hd, if_pos hden',
    if_neg (show ¬T.toNat = 0 by omega)]

lemma calculate_lcoe_ok_inv (Ef : ℚ) (econ : Econ) (T : ℤ) (deg : ℚ) (Nd : ℤ)
    (hT : 1 ≤ T) (hNd : Nd ≠ 0) (v : ℚ)
    (h : calculate_lcoe Ef econ T deg Nd = PyOutcome.finite v) :
    v = lcoeNum econ T Nd / lcoeDen Ef econ deg T := by
  by_cases hd : 1 + econ.d / 100 = 0
  · rw [calculate_lcoe_nonfinite_d Ef econ T deg Nd hNd hT hd] at h
    exact absurd h (by simp)
  · by_cases hden : lcoeDen Ef econ deg T = 0
    · rw [calculate_lcoe_nonfinite_den Ef econ T deg Nd hNd hT hd hden] at h
      exact absurd h (by simp)
    · rw [calculate_lcoe_ok Ef econ T deg Nd hNd hd hden] at h
      exact (PyOutcome.finite.injEq _ _ ▸ h).symm

lemma discountFactor_pos {d : ℚ} (hd : -100 < d) (y : ℕ) :
    0 < discountFactor d y := pow_pos (by linarith) y

lemma lcoeDen_pos (Ef : ℚ) (econ : Econ) (deg : ℚ) (T : ℤ)
    (hEf : 0 < Ef) (hdeg : deg < 1) (hd : -100 < econ.d) (hT : 1 ≤ T) :
    0 < lcoeDen Ef econ deg T := by
  rw [lcoeDen]
  apply Finset.sum_pos
  · intro y _
    rw [yieldYear]
    exact div_pos (mul_pos hEf (pow_pos (by linarith) y)) (discountFactor_pos hd y)
  · exact Finset.nonempty_Icc.mpr (by omega)

lemma lcoeDen_one (Ef : ℚ) (econ : Econ) (deg : ℚ) :
    lcoeDen Ef econ deg 1 = Ef * (1 - deg) / (1 + econ.d / 100) := by
  rw [lcoeDen, show (1 : ℤ).toNat = 1 from rfl, Finset.Icc_self, Finset.sum_singleton,
    yieldYear, discountFactor, pow_one, pow_one]

/-- C1: for every input with `lifetimeYears ≥ 1` and `depreciationYears ≠ 0`,
`calculate_lcoe` returns `numerator / denominator`: any finite value it
returns is `lcoeNum / lcoeDen` (the closed-form sums over the closed
interval `1..T`), and it does return that ratio whenever the discount base
and the closed-form denominator are nonzero. -/
theorem lcoe_returns_num_div_den (Ef : ℚ) (econ : Econ) (T : ℤ) (deg : ℚ) (Nd : ℤ)
    (hT : 1 ≤ T) (hNd : Nd ≠ 0) :
    (∀ v : ℚ, calculate_lcoe Ef econ T deg Nd = PyOutcome.finite v →
      v = lcoeNum econ T Nd / lcoeDen Ef econ deg T)
    ∧ (1 + econ.d / 100 ≠ 0 → lcoeDen Ef econ deg T ≠ 0 →
      calculate_lcoe Ef econ T deg Nd
        = PyOutcome.finite (lcoeNum econ T Nd / lcoeDen Ef econ deg T)) :=
  ⟨fun v hv => calculate_lcoe_ok_inv Ef econ T deg Nd hT hNd v hv,
   fun hd hden => calculate_lcoe_ok Ef econ T deg Nd hNd hd hden⟩

/-- Witness for C1 at `Ef = 1`, `econ = ⟨2,0,0,0,0⟩`, `T = 1`, `deg = 0`,
`Nd = 1`. -/
theorem lcoe_returns_num_div_den_witness :
    calculate_lcoe 1 ⟨2, 0, 0, 0, 0⟩ 1 0 1
      = PyOutcome.finite (lcoeNum ⟨2, 0, 0, 0, 0⟩ 1 1 / lcoeDen 1 ⟨2, 0, 0, 0, 0⟩ 0 1) :=
  (lcoe_returns_num_div_den 1 ⟨2, 0, 0, 0, 0⟩ 1 0 1 (by norm_num) (by norm_num)).2
    (by norm_num) (by rw [lcoeDen_one]; norm_num)

/-- Counterexample to C2 as stated: with `annualYield = 0`, `T = 1 ≥ 1` and
`Nd = 1 ≥ 1` the call does not fail with a division-by-zero error.  The
denominator is an `np.float64` zero, so numpy warns and returns a
non-finite value: the call returns, and no exception of any message is
raised. -/
theorem lcoe_zero_yield_no_raise_cex :
    calculate_lcoe 0 ⟨1, 2, 3, 4, 5⟩ 1 (1 / 100) 1 = PyOutcome.nonfinite ∧
    ∀ msg : String, calculate_lcoe 0 ⟨1, 2, 3, 4, 5⟩ 1 (1 / 100) 1 ≠ PyOutcome.raised msg := by
  have h : calculate_lcoe 0 ⟨1, 2, 3, 4, 5⟩ 1 (1 / 100) 1 = PyOutcome.nonfinite :=
    calculate_lcoe_nonfinite_den 0 ⟨1, 2, 3, 4, 5⟩ 1 (1 / 100) 1 (by norm_num)
      (by norm_num) (by norm_num) (by simp [lcoeDen, yieldYear])
  exact ⟨h, fun msg => by rw [h]; simp⟩

/-- C2 amended: with `annualYield = 0`, `lifetimeYears ≥ 1` and
`depreciationYears ≥ 1`, the denominator sums to an `np.float64` zero, so
the call returns a non-finite value (`inf`/`nan`, with a numpy
`RuntimeWarning`) — never a finite number, but also never a raised
exception. -/
theorem lcoe_zero_yield_nonfinite (econ : Econ) (T : ℤ) (deg : ℚ) (Nd : ℤ)
    (hT : 1 ≤ T) (hNd : 1 ≤ Nd) :
    calculate_lcoe 0 econ T deg Nd = PyOutcome.nonfinite := by
  have hNd0 : Nd ≠ 0 := by omega
  by_cases hd : 1 + econ.d / 100 = 0
  · exact calculate_lcoe_nonfinite_d 0 econ T deg Nd hNd0 hT hd
  · exact calculate_lcoe_nonfinite_den 0 econ T deg Nd hNd0 hT hd
      (by simp [lcoeDen, yieldYear])

/-- Witness for the amended C2 at `econ = ⟨6,7,8,9,10⟩`, `T = 2`,
`Nd = 3`. -/
theorem lcoe_zero_yield_nonfinite_witness :
    calculate_lcoe 0 ⟨6, 7, 8, 9, 10⟩ 2 (1 / 100) 3 = PyOutcome.nonfinite :=
  lcoe_zero_yield_nonfinite ⟨6, 7, 8, 9, 10⟩ 2 (1 / 100) 3 (by norm_num) (by norm_num)

/-- C3: with `opex = 0`, `taxRate = 0`, `degradationRate = 0` and
`discountRate = 0`, for any positive yield, nonnegative capex,
`lifetimeYears ≥ 1`, `depreciationYears ≥ 1` and any escalation rate,
`calculate_lcoe` returns exactly `capex / (annualYield * lifetimeYears)`. -/
theorem lcoe_zero_cost_sanity (Ef c rom : ℚ) (T Nd : ℤ)
    (hEf : 0 < Ef) (hc : 0 ≤ c) (hT : 1 ≤ T) (hNd : 1 ≤ Nd) :
    calculate_lcoe Ef ⟨c, 0, 0, 0, rom⟩ T 0 Nd = PyOutcome.finite (c / (Ef * (T : ℚ))) := by
  have hTQ : (T.toNat : ℚ) = (T : ℚ) := by
    exact_mod_cast Int.toNat_of_nonneg (by omega : (0 : ℤ) ≤ T)
  have hT0 : (0 : ℚ) < (T : ℚ) := by exact_mod_cast (by omega : (0 : ℤ) < T)
  have hden : lcoeDen Ef ⟨c, 0, 0, 0, rom⟩ 0 T = Ef * (T : ℚ) := by
    rw [lcoeDen]
    have h1 : ∀ y ∈ Finset.Icc 1 T.toNat, yieldYear Ef 0 (Econ.d ⟨c, 0, 0, 0, rom⟩) y = Ef := by
      intro y _; simp [yieldYear, discountFactor]
    rw [Finset.sum_congr rfl h1, Finset.sum_const, Nat.card_Icc, nsmul_eq_mul]
    simp only [Nat.add_sub_cancel]
    rw [hTQ]; ring
  have hnum : lcoeNum ⟨c, 0, 0, 0, rom⟩ T Nd = c := by
    simp [lcoeNum, opexYear, shieldYear]
  rw [calculate_lcoe_ok Ef ⟨c, 0, 0, 0, rom⟩ T 0 Nd (by omega) (by norm_num)
    (by rw [hden]; positivity), hnum, hden]

/-- Witness for C3 at `Ef = 2`, `capex = 3`, `rom = 7`, `T = 2`, `Nd = 1`. -/
theorem lcoe_zero_cost_sanity_witness :
    calculate_lcoe 2 ⟨3, 0, 0, 0, 7⟩ 2 0 1 = PyOutcome.finite (3 / (2 * ((2 : ℤ) : ℚ))) :=
  lcoe_zero_cost_sanity 2 3 7 2 1 (by norm_num) (by norm_num) (by norm_num) (by norm_num)

/-- C9: when `lifetimeYears ≤ 0` the loop body never runs, the denominator
stays the plain Python literal `0.`, and `calculate_lcoe` raises the
division-by-zero error for every yield (given `depreciationYears ≠ 0`). -/
theorem lcoe_nonpositive_lifetime_error (Ef : ℚ) (econ : Econ) (T : ℤ) (deg : ℚ) (Nd : ℤ)
    (hT : T ≤ 0) (hNd : Nd ≠ 0) :
    calculate_lcoe Ef econ T deg Nd = PyOutcome.raised "ZeroDivisionError" := by
  simp only [calculate_lcoe, if_neg hNd, show T.toNat = 0 from by omega]
  simp [List.foldlM_nil, pure, Except.pure]

/-- Witness for C9 at `Ef = 5`, `econ = ⟨1,2,3,4,5⟩`, `T = 0`, `Nd = 3`. -/
theorem lcoe_nonpositive_lifetime_error_witness :
    calculate_lcoe 5 ⟨1, 2, 3, 4, 5⟩ 0 (1 / 100) 3 = PyOutcome.raised "ZeroDivisionError" :=
  lcoe_nonpositive_lifetime_error 5 ⟨1, 2, 3, 4, 5⟩ 0 (1 / 100) 3 (by norm_num) (by norm_num)

lemma lcoeNum_one_shield (econ : Econ) (Nd : ℤ) (hNd : 1 ≤ Nd) :
    lcoeNum econ 1 Nd = econ.capex + opexYear econ.opex econ.Tx econ.rom econ.d 1
      - shieldYear econ.capex econ.Tx econ.d Nd 1 := by
  rw [lcoeNum, show (1 : ℤ).toNat = 1 from rfl, show min 1 Nd.toNat = 1 from by omega,
    Finset.Icc_self, Finset.sum_singleton, Finset.sum_singleton]

lemma lcoeNum_one_noshield (econ : Econ) (Nd : ℤ) (hNd : Nd < 0) :
    lcoeNum econ 1 Nd = econ.capex + opexYear econ.opex econ.Tx econ.rom econ.d 1 := by
  rw [lcoeNum, show (1 : ℤ).toNat = 1 from rfl, show min 1 Nd.toNat = 0 from by omega,
    show Finset.Icc 1 0 = (∅ : Finset ℕ) from rfl, Finset.sum_empty, sub_zero,
    Finset.Icc_self, Finset.sum_singleton]

/-- C10: when `taxRate = 0` the result is independent of the (nonzero)
depreciation horizon: any two nonzero `Nd` give the same outcome, because
the tax-shield subtraction is multiplied by `Tx/100 = 0`. -/
theorem lcoe_taxrate_zero_indep_depreciation (Ef : ℚ) (econ : Econ) (T : ℤ) (deg : ℚ)
    (Nd1 Nd2 : ℤ) (hTx : econ.Tx = 0) (h1 : Nd1 ≠ 0) (h2 : Nd2 ≠ 0) :
    calculate_lcoe Ef econ T deg Nd1 = calculate_lcoe Ef econ T deg Nd2 := by
  have hfold : (List.range T.toNat).foldlM
        (fun st i => yearStep Ef econ deg Nd1 (econ.capex / (Nd1 : ℚ)) st (i + 1))
        (econ.capex, (0 : ℚ))
      = (List.range T.toNat).foldlM
        (fun st i => yearStep Ef econ deg Nd2 (econ.capex / (Nd2 : ℚ)) st (i + 1))
        (econ.capex, (0 : ℚ)) := by
    congr 1
    funext st i
    simp [yearStep, hTx]
  simp only [calculate_lcoe, if_neg h1, if_neg h2]
  rw [hfold]

/-- Witness for C10 at `econ.Tx = 0`, `Nd1 = 1`, `Nd2 = 2`. -/
theorem lcoe_taxrate_zero_indep_depreciation_witness :
    calculate_lcoe 3 ⟨1, 2, 0, 4, 5⟩ 1 (1 / 100) 1 = calculate_lcoe 3 ⟨1, 2, 0, 4, 5⟩ 1 (1 / 100) 2 :=
  lcoe_taxrate_zero_indep_depreciation 3 ⟨1, 2, 0, 4, 5⟩ 1 (1 / 100) 1 2 rfl
    (by norm_num) (by norm_num)

/-- Counterexample to C7 as stated: with `depreciationYears = -1 ≤ 0` the
function does not fail; it returns the finite value `1` on this input,
because Python only raises on division by exactly zero. -/
theorem lcoe_negative_depreciation_no_error :
    calculate_lcoe 1 ⟨1, 0, 0, 0, 0⟩ 1 0 (-1) = PyOutcome.finite 1 := by
  rw [calculate_lcoe_ok 1 ⟨1, 0, 0, 0, 0⟩ 1 0 (-1) (by norm_num) (by norm_num)
    (by rw [lcoeDen_one]; norm_num)]
  rw [lcoeNum_one_noshield _ _ (by norm_num), lcoeDen_one]
  norm_num [opexYear, discountFactor]

/-- C7 amended: only `depreciationYears = 0` makes the depreciation
computation `capex / Nd` fail, before any loop iteration contributes,
with the same division-by-zero error as the empty-loop zero-denominator
case; negative `Nd` produces no error from that computation. -/
theorem lcoe_depreciation_zero_error (Ef : ℚ) (econ : Econ) (T : ℤ) (deg : ℚ) (Nd : ℤ)
    (hNd : Nd = 0) :
    calculate_lcoe Ef econ T deg Nd = PyOutcome.raised "ZeroDivisionError" :=
  hNd ▸ lcoe_Nd_zero Ef econ T deg

/-- Witness for the amended C7 at `Nd = 0`. -/
theorem lcoe_depreciation_zero_error_witness :
    calculate_lcoe 1 ⟨1, 1, 1, 1, 1⟩ 5 (1 / 100) 0 = PyOutcome.raised "ZeroDivisionError" :=
  lcoe_depreciation_zero_error 1 ⟨1, 1, 1, 1, 1⟩ 5 (1 / 100) 0 rfl

/-- Counterexample to C6 as stated: with `capex = 1 > 0` and `Tx = 25 > 0`,
calling with `depreciationYears = 0` raises the division-by-zero error at
`Dn = capex / Nd`, so there is no result to compare with the
`depreciationYears = lifetimeYears` run. -/
theorem lcoe_depreciation_cutoff_cex :
    calculate_lcoe 1 ⟨1, 0, 25, 0, 0⟩ 1 0 0 = PyOutcome.raised "ZeroDivisionError" :=
  lcoe_Nd_zero 1 ⟨1, 0, 25, 0, 0⟩ 1 0

lemma shield_sum (c tx d : ℚ) (Nd : ℤ) (s : Finset ℕ) :
    ∑ y ∈ s, shieldYear c tx d Nd y
      = c / (Nd : ℚ) * tx / 100 * ∑ y ∈ s, (discountFactor d y)⁻¹ := by
  rw [Finset.mul_sum]
  refine Finset.sum_congr rfl fun y _ => ?_
  rw [shieldYear, div_eq_mul_inv]

/-- C6 amended: the run where the tax shield never applies must use a
negative `Nd` (for instance `Nd = -1`): `Nd = 0` raises `ZeroDivisionError`
instead of returning a value.  With `capex > 0`, `taxRate > 0`, a positive
discounted-yield denominator (`Ef > 0`, `deg < 1`, `d > -100`, `T ≥ 1`),
the no-shield result is strictly larger than the
`depreciationYears = lifetimeYears` result. -/
theorem lcoe_depreciation_cutoff_amended (Ef c o tx d r deg : ℚ) (T : ℤ)
    (hc : 0 < c) (htx : 0 < tx) (hT : 1 ≤ T) (hEf : 0 < Ef) (hdeg : deg < 1)
    (hd : -100 < d) :
    ∃ vnone vfull : ℚ,
      calculate_lcoe Ef ⟨c, o, tx, d, r⟩ T deg (-1) = PyOutcome.finite vnone ∧
      calculate_lcoe Ef ⟨c, o, tx, d, r⟩ T deg T = PyOutcome.finite vfull ∧
      vfull < vnone := by
  have hb : (0 : ℚ) < 1 + d / 100 := by linarith
  have hden := lcoeDen_pos Ef ⟨c, o, tx, d, r⟩ deg T hEf hdeg hd hT
  have hT0 : (0 : ℚ) < (T : ℚ) := by exact_mod_cast (by omega : (0 : ℤ) < T)
  refine ⟨_, _,
    calculate_lcoe_ok Ef ⟨c, o, tx, d, r⟩ T deg (-1) (by norm_num) hb.ne' hden.ne',
    calculate_lcoe_ok Ef ⟨c, o, tx, d, r⟩ T deg T (by omega) hb.ne' hden.ne', ?_⟩
  rw [div_lt_div_iff_of_pos_right hden, lcoeNum, lcoeNum,
    show min T.toNat (-1 : ℤ).toNat = 0 from by omega,
    show Finset.Icc 1 0 = (∅ : Finset ℕ) from rfl, Finset.sum_empty, sub_zero,
    min_self]
  have hpos : 0 < ∑ y ∈ Finset.Icc 1 T.toNat, shieldYear c tx d T y := by
    apply Finset.sum_pos
    · intro y _
      rw [shieldYear]
      exact div_pos (div_pos (mul_pos (div_pos hc hT0) htx) (by norm_num))
        (discountFactor_pos hd y)
    · exact Finset.nonempty_Icc.mpr (by omega)
  linarith

/-- Witness for the amended C6 at `Ef = 1`, `capex = 1`, `Tx = 25`, `T = 1`. -/
theorem lcoe_depreciation_cutoff_amended_witness :
    ∃ vnone vfull : ℚ,
      calculate_lcoe 1 ⟨1, 0, 25, 0, 0⟩ 1 0 (-1) = PyOutcome.finite vnone ∧
      calculate_lcoe 1 ⟨1, 0, 25, 0, 0⟩ 1 0 1 = PyOutcome.finite vfull ∧
      vfull < vnone :=
  lcoe_depreciation_cutoff_amended 1 1 0 25 0 0 0 1 (by norm_num) (by norm_num)
    (by norm_num) (by norm_num) (by norm_num) (by norm_num)

/-- Counterexample to C4 as stated: at `Tx = 100`, `d = 0`, `T = 1`,
`Nd = 1` the tax shield exactly cancels capex, so `capex = 1` and
`capex = 2` both yield the result `0`: the result is not strictly
increasing in capex (and the numerator does not strictly increase). -/
theorem lcoe_capex_mono_cex :
    calculate_lcoe 1 ⟨1, 0, 100, 0, 0⟩ 1 0 1 = PyOutcome.finite 0 ∧
    calculate_lcoe 1 ⟨2, 0, 100, 0, 0⟩ 1 0 1 = PyOutcome.finite 0 := by
  constructor <;>
  · rw [calculate_lcoe_ok _ _ 1 0 1 (by norm_num) (by norm_num)
      (by rw [lcoeDen_one]; norm_num)]
    rw [lcoeNum_one_shield _ _ (by norm_num), lcoeDen_one]
    norm_num [opexYear, shieldYear, discountFactor]

/-- C4 amended: the result is strictly increasing in capex whenever the
discounted tax-shield coefficient `(Tx/100) · Σ_{y≤min(T,Nd)} (1+d/100)^{-y} / Nd`
is less than `1` and the denominator is positive; at `Tx = 100`, `d = 0`,
`T = Nd = 1` the coefficient equals `1` and strictness fails. -/
theorem lcoe_capex_mono_amended (Ef c1 c2 o tx d r deg : ℚ) (T Nd : ℤ)
    (hc : c1 < c2) (hT : 1 ≤ T) (hNd : Nd ≠ 0) (hd : 1 + d / 100 ≠ 0)
    (hden : 0 < lcoeDen Ef ⟨c1, o, tx, d, r⟩ deg T)
    (hsh : tx / 100 * (∑ y ∈ Finset.Icc 1 (min T.toNat Nd.toNat), (discountFactor d y)⁻¹)
      / (Nd : ℚ) < 1) :
    ∃ v1 v2 : ℚ,
      calculate_lcoe Ef ⟨c1, o, tx, d, r⟩ T deg Nd = PyOutcome.finite v1 ∧
      calculate_lcoe Ef ⟨c2, o, tx, d, r⟩ T deg Nd = PyOutcome.finite v2 ∧ v1 < v2 := by
  have hden2 : lcoeDen Ef ⟨c2, o, tx, d, r⟩ deg T = lcoeDen Ef ⟨c1, o, tx, d, r⟩ deg T := rfl
  refine ⟨_, _,
    calculate_lcoe_ok Ef ⟨c1, o, tx, d, r⟩ T deg Nd hNd hd hden.ne',
    calculate_lcoe_ok Ef ⟨c2, o, tx, d, r⟩ T deg Nd hNd hd (hden2 ▸ hden.ne'), ?_⟩
  rw [hden2, div_lt_div_iff_of_pos_right hden]
  have hkey : lcoeNum ⟨c2, o, tx, d, r⟩ T Nd - lcoeNum ⟨c1, o, tx, d, r⟩ T Nd
      = (c2 - c1) * (1 - tx / 100
          * (∑ y ∈ Finset.Icc 1 (min T.toNat Nd.toNat), (discountFactor d y)⁻¹) / (Nd : ℚ)) := by
    simp only [lcoeNum, shield_sum]
    ring
  nlinarith [mul_pos (sub_pos.mpr hc) (sub_pos.mpr hsh)]

/-- Witness for the amended C4 at `c1 = 1 < c2 = 2`, `tx = 0`. -/
theorem lcoe_capex_mono_amended_witness :
    ∃ v1 v2 : ℚ,
      calculate_lcoe 1 ⟨1, 0, 0, 0, 0⟩ 1 0 1 = PyOutcome.finite v1 ∧
      calculate_lcoe 1 ⟨2, 0, 0, 0, 0⟩ 1 0 1 = PyOutcome.finite v2 ∧ v1 < v2 :=
  lcoe_capex_mono_amended 1 1 2 0 0 0 0 0 1 1 (by norm_num) (by norm_num)
    (by norm_num) (by norm_num) (by rw [lcoeDen_one]; norm_num) (by norm_num)

lemma lcoeDen_smul (Ef : ℚ) (econ : Econ) (deg : ℚ) (T : ℤ) :
    lcoeDen Ef econ deg T = Ef * lcoeDen 1 econ deg T := by
  rw [lcoeDen, lcoeDen, Finset.mul_sum]
  refine Finset.sum_congr rfl fun y _ => ?_
  rw [yieldYear, yieldYear]
  ring

/-- Counterexample to C5 as stated: at `capex = 1`, `Tx = 100`, `d = 0`,
`T = Nd = 1` the numerator is `0`, so yields `1` and `2` both give result
`0`: increasing the yield does not strictly decrease the result. -/
theorem lcoe_yield_mono_cex :
    calculate_lcoe 1 ⟨1, 0, 100, 0, 0⟩ 1 0 1 = PyOutcome.finite 0 ∧
    calculate_lcoe 2 ⟨1, 0, 100, 0, 0⟩ 1 0 1 = PyOutcome.finite 0 := by
  constructor <;>
  · rw [calculate_lcoe_ok _ _ 1 0 1 (by norm_num) (by norm_num)
      (by rw [lcoeDen_one]; norm_num)]
    rw [lcoeNum_one_shield _ _ (by norm_num), lcoeDen_one]
    norm_num [opexYear, shieldYear, discountFactor]

/-- C5 amended: the result is strictly decreasing in the yield whenever
the numerator is positive, the per-unit discounted degraded yield sum is
positive, and `0 < annualYield1 < annualYield2`; when the numerator is
zero (full tax shield cancelling capex) the result is `0` for all
yields. -/
theorem lcoe_yield_mono_amended (Ef1 Ef2 : ℚ) (econ : Econ) (deg : ℚ) (T Nd : ℤ)
    (hE1 : 0 < Ef1) (hE : Ef1 < Ef2) (hT : 1 ≤ T) (hNd : Nd ≠ 0)
    (hd : 1 + econ.d / 100 ≠ 0) (hD : 0 < lcoeDen 1 econ deg T)
    (hN : 0 < lcoeNum econ T Nd) :
    ∃ v1 v2 : ℚ,
      calculate_lcoe Ef1 econ T deg Nd = PyOutcome.finite v1 ∧
      calculate_lcoe Ef2 econ T deg Nd = PyOutcome.finite v2 ∧ v2 < v1 := by
  have h1 : (0 : ℚ) < lcoeDen Ef1 econ deg T := by
    rw [lcoeDen_smul]; exact mul_pos hE1 hD
  have h2 : (0 : ℚ) < lcoeDen Ef2 econ deg T := by
    rw [lcoeDen_smul]; exact mul_pos (hE1.trans hE) hD
  refine ⟨_, _,
    calculate_lcoe_ok Ef1 econ T deg Nd hNd hd h1.ne',
    calculate_lcoe_ok Ef2 econ T deg Nd hNd hd h2.ne', ?_⟩
  rw [lcoeDen_smul Ef1, lcoeDen_smul Ef2]
  exact div_lt_div_of_pos_left hN (mul_pos hE1 hD)
    (mul_lt_mul_of_pos_right hE hD)

/-- Witness for the amended C5 at `Ef1 = 1 < Ef2 = 2`, `econ = ⟨1,0,0,0,0⟩`. -/
theorem lcoe_yield_mono_amended_witness :
    ∃ v1 v2 : ℚ,
      calculate_lcoe 1 ⟨1, 0, 0, 0, 0⟩ 1 0 1 = PyOutcome.finite v1 ∧
      calculate_lcoe 2 ⟨1, 0, 0, 0, 0⟩ 1 0 1 = PyOutcome.finite v2 ∧ v2 < v1 :=
  lcoe_yield_mono_amended 1 2 ⟨1, 0, 0, 0, 0⟩ 0 1 1 (by norm_num) (by norm_num)
    (by norm_num) (by norm_num) (by norm_num)
    (by rw [lcoeDen_one]; norm_num)
    (by rw [lcoeNum_one_shield _ _ (by norm_num)]; norm_num [opexYear, shieldYear, discountFactor])

/-- C8: with `depreciationYears > lifetimeYears ≥ 1` no validation error or
capping occurs: whenever the discount base and denominator are nonzero the
call returns, the tax shield applies in every year `1..T`, and the per-year
depreciation amount is still `capex / Nd`. -/
theorem lcoe_depreciation_beyond_lifetime (Ef : ℚ) (econ : Econ) (deg : ℚ) (T Nd : ℤ)
    (hT : 1 ≤ T) (hTNd : T < Nd) (hd : 1 + econ.d / 100 ≠ 0)
    (hden : lcoeDen Ef econ deg T ≠ 0) :
    calculate_lcoe Ef econ T deg Nd
      = PyOutcome.finite ((econ.capex
          + (∑ y ∈ Finset.Icc 1 T.toNat, opexYear econ.opex econ.Tx econ.rom econ.d y)
          - ∑ y ∈ Finset.Icc 1 T.toNat, shieldYear econ.capex econ.Tx econ.d Nd y)
        / lcoeDen Ef econ deg T) := by
  rw [calculate_lcoe_ok Ef econ T deg Nd (by omega) hd hden, lcoeNum,
    show min T.toNat Nd.toNat = T.toNat from by omega]

/-- Witness for C8 at `T = 1 < Nd = 5`. -/
theorem lcoe_depreciation_beyond_lifetime_witness :
    calculate_lcoe 1 ⟨2, 0, 50, 0, 0⟩ 1 0 5
      = PyOutcome.finite ((2
          + (∑ y ∈ Finset.Icc 1 (1 : ℤ).toNat, opexYear 0 50 0 0 y)
          - ∑ y ∈ Finset.Icc 1 (1 : ℤ).toNat, shieldYear 2 50 0 5 y)
        / lcoeDen 1 ⟨2, 0, 50, 0, 0⟩ 0 1) :=
  lcoe_depreciation_beyond_lifetime 1 ⟨2, 0, 50, 0, 0⟩ 0 1 5 (by norm_num) (by norm_num)
    (by norm_num) (by rw [lcoeDen_one]; norm_num)
